import Mathlib

/-!
Verification of the weather application (`weatherapp.py`) against its
natural-language specification.

The program is shallowly embedded: parsed JSON values become an inductive
`Json` type, Python exceptions become an error type `PyErr` threaded through
`Except`, Python floats become rationals (`ℚ`), and the side-effecting fetch
(`requests.get` + `response.json()`) is abstracted by a `FetchOutcome`
parameter describing what the network/parsing step produced.  The click
handler `get_weather_info` additionally returns a network-call counter so
that "no network call was attempted" is expressible.
-/

/-- A parsed JSON value, as produced by Python's `response.json()`.
Python distinguishes JSON integers (parsed as `int`) from JSON floats. -/
inductive Json where
  | null : Json
  | bool (b : Bool) : Json
  | int (z : ℤ) : Json
  | float (q : ℚ) : Json
  | str (s : String) : Json
  | arr (elems : List Json) : Json
  | obj (fields : List (String × Json)) : Json

/-- Python exceptions that the embedded code can raise. -/
inductive PyErr where
  | runtimeError (msg : String) : PyErr
  | keyError (key : String) : PyErr
  | indexError : PyErr
  | typeError : PyErr
  | connectionError : PyErr
  | jsonDecodeError : PyErr
deriving DecidableEq, Repr

/-- Python truthiness of a JSON value (`if weather_data`). -/
def truthy : Json → Bool
  | .null => false
  | .bool b => b
  | .int z => z != 0
  | .float q => q != 0
  | .str s => !s.isEmpty
  | .arr l => !l.isEmpty
  | .obj l => !l.isEmpty

/-- Whether the needle list is an initial segment of the haystack list. -/
def leadsWith : List Char → List Char → Bool
  | [], _ => true
  | _ :: _, [] => false
  | a :: as, b :: bs => a == b && leadsWith as bs

/-- Whether the needle occurs contiguously inside the haystack. -/
def isSubList (n : List Char) : List Char → Bool
  | [] => n.isEmpty
  | c :: t => leadsWith n (c :: t) || isSubList n t

/-- Python's substring test `n in h` on strings. -/
def isSubStr (n h : String) : Bool := isSubList n.toList h.toList

/-- Python's membership test `k in j` on a JSON value: key lookup for dicts,
element equality for lists, substring test for strings, `TypeError`
otherwise. -/
def jsonContains (j : Json) (k : String) : Except PyErr Bool :=
  match j with
  | .obj l => .ok (List.lookup k l).isSome
  | .arr l => .ok (l.any (fun e => match e with | .str s => s == k | _ => false))
  | .str s => .ok (isSubStr k s)
  | _ => .error .typeError

/-- Python's subscript `j[k]` with a string key: dict lookup raising
`KeyError` on a missing key, `TypeError` on non-dicts. -/
def jsonGet (j : Json) (k : String) : Except PyErr Json :=
  match j with
  | .obj l =>
    match List.lookup k l with
    | some v => .ok v
    | none => .error (.keyError k)
  | _ => .error .typeError

/-- Python's subscript `j[i]` with a natural index: list indexing raising
`IndexError` when out of range; a string yields its one-character slice;
a dict raises `KeyError`; other values raise `TypeError`. -/
def jsonIndex (j : Json) (i : Nat) : Except PyErr Json :=
  match j with
  | .arr l =>
    match l.get? i with
    | some v => .ok v
    | none => .error .indexError
  | .str s =>
    match s.toList.get? i with
    | some c => .ok (.str (String.singleton c))
    | none => .error .indexError
  | .obj _ => .error (.keyError (toString i))
  | _ => .error .typeError

/-- The numeric value of a JSON value, as required by Python's arithmetic and
`.2f` formatting; Python booleans count as numbers (`True` is `1`). -/
def asNum (j : Json) : Except PyErr ℚ :=
  match j with
  | .int z => .ok (z : ℚ)
  | .float q => .ok q
  | .bool b => .ok (if b then 1 else 0)
  | _ => .error .typeError

/-- Round a rational to the nearest integer, ties to even — the rounding used
by Python's fixed-point formatting. -/
def roundHalfEven (q : ℚ) : ℤ :=
  let f : ℤ := Int.fdiv q.num (q.den : ℤ)
  let r : ℚ := q - (f : ℚ)
  if r < 1/2 then f
  else if (1 : ℚ)/2 < r then f + 1
  else if f % 2 = 0 then f else f + 1

/-- A natural number below 100 printed as exactly two digits. -/
def pad2 (m : Nat) : String :=
  if m < 10 then "0" ++ toString m else toString m

/-- Python's `format(q, ".2f")`: the value rounded (half to even) to two
decimal places, always printing two digits after the point; the sign is
taken from the value itself. -/
def formatFixed2 (q : ℚ) : String :=
  let n : ℤ := roundHalfEven (q * 100)
  (if q < 0 then "-" else "") ++ toString (n.natAbs / 100) ++ "." ++ pad2 (n.natAbs % 100)

/-- A string of `k` zeros prepended to pad `s` to length `k`. -/
def padZeros (k : Nat) (s : String) : String :=
  String.mk (List.replicate (k - s.length) '0') ++ s

/-- The least number of decimal digits with which `q` has an exact finite
decimal expansion, when one exists (all JSON-parsed floats do). -/
def decDigits (q : ℚ) : Option Nat :=
  (List.range 400).find? (fun k => (q * (10 : ℚ) ^ k).den = 1)

/-- Python's `str` on a float: the exact decimal expansion with at least one
digit after the point (e.g. `3.5`, `60.0`).  Values with no finite decimal
expansion cannot arise from JSON parsing; they fall back to the raw rational
rendering. -/
def floatStr (q : ℚ) : String :=
  match decDigits q with
  | some k0 =>
    let k := max k0 1
    let m := ((q * (10 : ℚ) ^ k).num).natAbs
    (if q < 0 then "-" else "") ++ toString (m / 10 ^ k) ++ "." ++ padZeros k (toString (m % 10 ^ k))
  | none => toString q

/-- Python's `str` applied to a JSON value, as done by f-string
interpolation.  Containers are abbreviated: no field consumed by the
application's template renders a list or dict. -/
def pyStr : Json → String
  | .null => "None"
  | .bool true => "True"
  | .bool false => "False"
  | .int z => toString z
  | .float q => floatStr q
  | .str s => s
  | .arr _ => "<list>"
  | .obj _ => "<dict>"

/-- The four converted temperatures and the unit label produced by the
`if unit == "C" / elif unit == "F" / else` chain of `display_weather_info`
(source lines 139–152). -/
structure TempConversion where
  temperature : ℚ
  feels_like : ℚ
  temp_min : ℚ
  temp_max : ℚ
  unit_label : String
deriving DecidableEq, Repr

/-- The conversion chain of `display_weather_info`, verbatim from the source:
Celsius and Fahrenheit convert all four fields, anything else leaves them
in Kelvin. -/
def convertTemps (temperature feels_like temp_min temp_max : ℚ) (unit : String) : TempConversion :=
  if unit = "C" then
    { temperature := temperature - 273.15
      feels_like := feels_like - 273.15
      temp_min := temp_min - 273.15
      temp_max := temp_max - 273.15
      unit_label := "°C" }
  else if unit = "F" then
    { temperature := (temperature - 273.15) * 9/5 + 32
      feels_like := (feels_like - 273.15) * 9/5 + 32
      temp_min := (temp_min - 273.15) * 9/5 + 32
      temp_max := (temp_max - 273.15) * 9/5 + 32
      unit_label := "°F" }
  else
    { temperature := temperature
      feels_like := feels_like
      temp_min := temp_min
      temp_max := temp_max
      unit_label := "K" }

/-- `WeatherApp.display_weather_info(data, unit)`: the unguarded field
accesses (source lines 130–137), the unit-conversion chain, and the
f-string template.  Each subscript access can raise; the raised exception
propagates (`Except.error`).  The four temperatures are coerced to numbers,
as Python's subtraction and `.2f` formatting require. -/
def display_weather_info (data : Json) (unit : String) : Except PyErr String := do
  let location ← jsonGet data "name"
  let weatherList ← jsonGet data "weather"
  let weatherHead ← jsonIndex weatherList 0
  let weather_description ← jsonGet weatherHead "description"
  let mainData ← jsonGet data "main"
  let temperatureJ ← jsonGet mainData "temp"
  let feels_likeJ ← jsonGet mainData "feels_like"
  let temp_minJ ← jsonGet mainData "temp_min"
  let temp_maxJ ← jsonGet mainData "temp_max"
  let humidity ← jsonGet mainData "humidity"
  let windData ← jsonGet data "wind"
  let wind_speed ← jsonGet windData "speed"
  let temperature ← asNum temperatureJ
  let feels_like ← asNum feels_likeJ
  let temp_min ← asNum temp_minJ
  let temp_max ← asNum temp_maxJ
  let conv := convertTemps temperature feels_like temp_min temp_max unit
  return "Weather Information:" ++ "\n" ++
    "Location: " ++ pyStr location ++ "\n" ++
    "Weather: " ++ pyStr weather_description ++ "\n" ++
    "Temperature: " ++ formatFixed2 conv.temperature ++ " " ++ conv.unit_label ++ "\n" ++
    "Feels Like: " ++ formatFixed2 conv.feels_like ++ " " ++ conv.unit_label ++ "\n" ++
    "Min Temperature: " ++ formatFixed2 conv.temp_min ++ " " ++ conv.unit_label ++ "\n" ++
    "Max Temperature: " ++ formatFixed2 conv.temp_max ++ " " ++ conv.unit_label ++ "\n" ++
    "Humidity: " ++ pyStr humidity ++ "%" ++ "\n" ++
    "Wind Speed: " ++ pyStr wind_speed ++ " m/s"

/-- The request URL built by `WeatherApp.get_weather` (source line 114): a
plain f-string interpolation of the location and the API key. -/
def get_weather_url (api_key location : String) : String :=
  "https://api.openweathermap.org/data/2.5/weather?q=" ++ location ++ "&appid=" ++ api_key

/-- The unit determined from the radio buttons in `get_weather_info`:
`'K'` by default, overridden by the Celsius and Fahrenheit buttons; the
Kelvin button is never consulted. -/
def selectedUnit (c_checked f_checked : Bool) : String :=
  if c_checked then "C" else if f_checked then "F" else "K"

/-- The fixed failure sentence shown by `get_weather_info`. -/
def failureText : String :=
  "Failed to fetch weather data. Please check the location and try again."

/-- The guard `weather_data and "name" in weather_data` with Python's
short-circuiting `and`; the membership test can itself raise. -/
def fetchGuard (weather_data : Json) : Except PyErr Bool :=
  if truthy weather_data then jsonContains weather_data "name" else .ok false

/-- What the network-and-parse step (`requests.get` followed by
`response.json()`) produced: a raised exception (connection error or JSON
decode error) or a parsed JSON value. -/
inductive FetchOutcome where
  | raised (e : PyErr) : FetchOutcome
  | parsed (data : Json) : FetchOutcome

/-- Python truthiness of `os.getenv(...)`: `None` and the empty string are
falsy. -/
def apiKeyPresent (env : Option String) : Bool :=
  match env with
  | none => false
  | some s => !s.isEmpty

/-- `WeatherApp.get_weather_info`, the click handler.  Inputs: the
`OPENWEATHER_API_KEY` environment variable, the location text, the two
consulted radio-button states, and the outcome of the (single) fetch.
Output: `.ok txt` when the handler returns normally having set the info
label to `txt`, `.error e` when exception `e` propagates out of the handler
(the label is then left unchanged); paired with the number of network calls
made. -/
def get_weather_info (envApiKey : Option String) (location : String)
    (c_checked f_checked : Bool) (fetch : FetchOutcome) : Except PyErr String × Nat :=
  if !apiKeyPresent envApiKey then
    (.error (.runtimeError "OPENWEATHER_API_KEY is not set"), 0)
  else
    let api_key := match envApiKey with | some s => s | none => ""
    let unit := selectedUnit c_checked f_checked
    let _url := get_weather_url api_key location
    match fetch with
    | .raised e => (.error e, 1)
    | .parsed weather_data =>
      match fetchGuard weather_data with
      | .error e => (.error e, 1)
      | .ok true =>
        match display_weather_info weather_data unit with
        | .error e => (.error e, 1)
        | .ok info => (.ok info, 1)
      | .ok false => (.ok failureText, 1)

/-- The spec's `WeatherReading` record (§3): a successful, well-shaped parsed
response. -/
structure WeatherReading where
  locationName : String
  description : String
  temperatureKelvin : ℚ
  feelsLikeKelvin : ℚ
  minTemperatureKelvin : ℚ
  maxTemperatureKelvin : ℚ
  humidityPercent : ℤ
  windSpeedMetersPerSecond : ℚ

/-- The JSON value corresponding to a `WeatherReading`, shaped per the
response contract consumed by the application (§6). -/
def mkJson (r : WeatherReading) : Json :=
  .obj [("name", .str r.locationName),
        ("weather", .arr [.obj [("description", .str r.description)]]),
        ("main", .obj [("temp", .float r.temperatureKelvin),
                       ("feels_like", .float r.feelsLikeKelvin),
                       ("temp_min", .float r.minTemperatureKelvin),
                       ("temp_max", .float r.maxTemperatureKelvin),
                       ("humidity", .int r.humidityPercent)]),
        ("wind", .obj [("speed", .float r.windSpeedMetersPerSecond)])]

/-- Modelled from the spec (§4.3): the conversion rule for a single
temperature value under a unit selection, used as the specification side of
refinement statements. -/
def specConvert (unit : String) (value : ℚ) : ℚ :=
  if unit = "C" then value - 273.15
  else if unit = "F" then (value - 273.15) * 9/5 + 32
  else value

/-- Modelled from the spec (glossary): the display suffix for a unit
selection. -/
def unitLabel (unit : String) : String :=
  if unit = "C" then "°C" else if unit = "F" then "°F" else "K"

/-- Join a list of lines with newline separators. -/
def joinLines : List String → String
  | [] => ""
  | [line] => line
  | line :: rest => line ++ "\n" ++ joinLines rest

/-- Whether an `Except` value is a normal (non-exceptional) result. -/
def isOkB {ε α : Type} : Except ε α → Bool
  | .ok _ => true
  | .error _ => false

/-- Whether the `"weather"` entry of a response dict is the empty list. -/
def weatherEmpty (l : List (String × Json)) : Bool :=
  match List.lookup "weather" l with
  | some (.arr xs) => xs.isEmpty
  | _ => false

/-- The spec's §8 sample successful response. -/
def sampleReading : WeatherReading :=
  { locationName := "London"
    description := "clear sky"
    temperatureKelvin := 280.0
    feelsLikeKelvin := 279.0
    minTemperatureKelvin := 278.0
    maxTemperatureKelvin := 282.0
    humidityPercent := 60
    windSpeedMetersPerSecond := 3.5 }

/-- The spec's §8 sample failed-lookup response, lacking a `name` field. -/
def notFoundResponse : Json :=
  .obj [("cod", .str "404"), ("message", .str "city not found")]

unseal Rat.sub Rat.add Rat.mul Rat.inv Rat.ofScientific

theorem strAppendAssoc (a b c : String) : a ++ b ++ c = a ++ (b ++ c) := by
  apply String.ext
  simp [String.data_append, List.append_assoc]

/-- The source's conversion chain computes, on each field independently, the
spec's conversion formula for the chosen unit, paired with the spec's unit
label. -/
theorem convertTemps_eq_spec (t fl mn mx : ℚ) (u : String) :
    convertTemps t fl mn mx u =
      { temperature := specConvert u t, feels_like := specConvert u fl,
        temp_min := specConvert u mn, temp_max := specConvert u mx,
        unit_label := unitLabel u } := by
  unfold convertTemps specConvert unitLabel
  split_ifs <;> rfl

theorem exBindOk {ε α β : Type} (a : α) (f : α → Except ε β) :
    (Except.ok a >>= f : Except ε β) = f a := rfl

theorem exBindErr {ε α β : Type} (e : ε) (f : α → Except ε β) :
    (Except.error e >>= f : Except ε β) = Except.error e := rfl

theorem exBind_eq_ok {ε α β : Type} (x : Except ε α) (f : α → Except ε β) (b : β) :
    (x >>= f) = .ok b ↔ ∃ a, x = .ok a ∧ f a = .ok b := by
  cases x with
  | error e => simp [exBindErr]
  | ok a => simp [exBindOk]

theorem pad2_shape :
    ∀ m : Fin 100, (pad2 m.val).length = 2 ∧ (pad2 m.val).toList.all Char.isDigit = true := by
  decide

/-- Every fixed-two-decimal rendering ends in a point followed by exactly two
digits. -/
theorem formatFixed2_shape (q : ℚ) :
    ∃ s t : String, formatFixed2 q = s ++ "." ++ t ∧ t.length = 2 ∧
      t.toList.all Char.isDigit = true := by
  refine ⟨(if q < 0 then "-" else "") ++ toString ((roundHalfEven (q * 100)).natAbs / 100),
          pad2 ((roundHalfEven (q * 100)).natAbs % 100), rfl, ?_, ?_⟩
  · exact (pad2_shape ⟨(roundHalfEven (q * 100)).natAbs % 100, Nat.mod_lt _ (by norm_num)⟩).1
  · exact (pad2_shape ⟨(roundHalfEven (q * 100)).natAbs % 100, Nat.mod_lt _ (by norm_num)⟩).2

/-- On any well-shaped reading, the formatter succeeds and renders the fixed
template: a header label and eight data lines, the four temperatures
converted by the spec formula and rendered with `formatFixed2`, the humidity
as its integer value, and the wind speed rendered exactly (no rounding). -/
theorem display_weather_info_mkJson (r : WeatherReading) (u : String) :
    display_weather_info (mkJson r) u = .ok (joinLines
      ["Weather Information:",
       "Location: " ++ r.locationName,
       "Weather: " ++ r.description,
       "Temperature: " ++ formatFixed2 (specConvert u r.temperatureKelvin) ++ " " ++ unitLabel u,
       "Feels Like: " ++ formatFixed2 (specConvert u r.feelsLikeKelvin) ++ " " ++ unitLabel u,
       "Min Temperature: " ++ formatFixed2 (specConvert u r.minTemperatureKelvin) ++ " " ++ unitLabel u,
       "Max Temperature: " ++ formatFixed2 (specConvert u r.maxTemperatureKelvin) ++ " " ++ unitLabel u,
       "Humidity: " ++ toString r.humidityPercent ++ "%",
       "Wind Speed: " ++ floatStr r.windSpeedMetersPerSecond ++ " m/s"]) := by
  have e1 : display_weather_info (mkJson r) u = Except.ok
      ("Weather Information:" ++ "\n" ++
        "Location: " ++ r.locationName ++ "\n" ++
        "Weather: " ++ r.description ++ "\n" ++
        "Temperature: " ++ formatFixed2 (convertTemps r.temperatureKelvin r.feelsLikeKelvin
          r.minTemperatureKelvin r.maxTemperatureKelvin u).temperature ++ " " ++
          (convertTemps r.temperatureKelvin r.feelsLikeKelvin
          r.minTemperatureKelvin r.maxTemperatureKelvin u).unit_label ++ "\n" ++
        "Feels Like: " ++ formatFixed2 (convertTemps r.temperatureKelvin r.feelsLikeKelvin
          r.minTemperatureKelvin r.maxTemperatureKelvin u).feels_like ++ " " ++
          (convertTemps r.temperatureKelvin r.feelsLikeKelvin
          r.minTemperatureKelvin r.maxTemperatureKelvin u).unit_label ++ "\n" ++
        "Min Temperature: " ++ formatFixed2 (convertTemps r.temperatureKelvin r.feelsLikeKelvin
          r.minTemperatureKelvin r.maxTemperatureKelvin u).temp_min ++ " " ++
          (convertTemps r.temperatureKelvin r.feelsLikeKelvin
          r.minTemperatureKelvin r.maxTemperatureKelvin u).unit_label ++ "\n" ++
        "Max Temperature: " ++ formatFixed2 (convertTemps r.temperatureKelvin r.feelsLikeKelvin
          r.minTemperatureKelvin r.maxTemperatureKelvin u).temp_max ++ " " ++
          (convertTemps r.temperatureKelvin r.feelsLikeKelvin
          r.minTemperatureKelvin r.maxTemperatureKelvin u).unit_label ++ "\n" ++
        "Humidity: " ++ toString r.humidityPercent ++ "%" ++ "\n" ++
        "Wind Speed: " ++ floatStr r.windSpeedMetersPerSecond ++ " m/s") := rfl
  rw [e1, convertTemps_eq_spec]
  simp only [joinLines, strAppendAssoc]

theorem jsonGet_obj (l : List (String × Json)) (k : String) :
    jsonGet (Json.obj l) k =
      (match List.lookup k l with
       | some v => .ok v
       | none => .error (.keyError k)) := rfl

/-- If the formatter returns text on a dict, the dict has `weather`, `main`
and `wind` entries and the `weather` entry is not the empty list. -/
theorem display_ok_shape (l : List (String × Json)) (u : String) (s : String)
    (h : display_weather_info (Json.obj l) u = .ok s) :
    (List.lookup "weather" l).isSome = true ∧ (List.lookup "main" l).isSome = true ∧
    (List.lookup "wind" l).isSome = true ∧ weatherEmpty l = false := by
  unfold display_weather_info at h
  simp only [exBind_eq_ok] at h
  obtain ⟨nm, hnm, wl, hwl, w0, hw0, wd, hwd, mo, hmo, t1, ht1, t2, ht2, t3, ht3, t4, ht4,
    hu, hhu, wo, hwo, sp, hsp, q1, hq1, q2, hq2, q3, hq3, q4, hq4, hfin⟩ := h
  rw [jsonGet_obj] at hwl hmo hwo
  refine ⟨?_, ?_, ?_, ?_⟩
  · cases hl : List.lookup "weather" l with
    | none => rw [hl] at hwl; cases hwl
    | some v => rfl
  · cases hl : List.lookup "main" l with
    | none => rw [hl] at hmo; cases hmo
    | some v => rfl
  · cases hl : List.lookup "wind" l with
    | none => rw [hl] at hwo; cases hwo
    | some v => rfl
  · cases hl : List.lookup "weather" l with
    | none => rw [hl] at hwl; cases hwl
    | some v =>
      rw [hl] at hwl
      unfold weatherEmpty
      rw [hl]
      cases v with
      | arr xs =>
        cases xs with
        | nil =>
          exfalso
          have hwlv : wl = Json.arr [] := by cases hwl; rfl
          rw [hwlv] at hw0
          cases hw0
        | cons y ys => rfl
      | null => rfl
      | bool b => rfl
      | int z => rfl
      | float q => rfl
      | str s2 => rfl
      | obj o => rfl

/-- The number of lines of a rendered string: one more than its newline
count. -/
def lineCount (s : String) : Nat := (s.toList.filter (fun c => c = '\n')).length + 1

/-- The text rendered for the spec's §8 sample response under Celsius. -/
def sampleRenderedC : String :=
  "Weather Information:\nLocation: London\nWeather: clear sky\nTemperature: 6.85 °C\nFeels Like: 5.85 °C\nMin Temperature: 4.85 °C\nMax Temperature: 8.85 °C\nHumidity: 60%\nWind Speed: 3.5 m/s"

/-- The text rendered for the spec's §8 sample response under Kelvin. -/
def sampleRenderedK : String :=
  "Weather Information:\nLocation: London\nWeather: clear sky\nTemperature: 280.00 K\nFeels Like: 279.00 K\nMin Temperature: 278.00 K\nMax Temperature: 282.00 K\nHumidity: 60%\nWind Speed: 3.5 m/s"

/-- C1 (amended): when the fetch produced a parsed JSON body on which the
guard `weather_data and "name" in weather_data` evaluates to false — a falsy
body or one without a `name` entry — the handler sets the label to exactly
the fixed failure sentence and returns normally; no weather information is
shown. (As stated, the claim is false for network errors and non-JSON
bodies: those propagate as uncaught exceptions, see the counterexample.) -/
theorem claim_C1 (k loc : String) (c f : Bool) (j : Json)
    (hk : k.isEmpty = false) (hguard : fetchGuard j = .ok false) :
    get_weather_info (some k) loc c f (.parsed j) = (.ok failureText, 1) := by
  simp [get_weather_info, apiKeyPresent, hk, hguard]

theorem claim_C1_witness :
    ("k" : String).isEmpty = false ∧ fetchGuard notFoundResponse = .ok false ∧
    get_weather_info (some "k") "London" false false (.parsed notFoundResponse) =
      (.ok failureText, 1) :=
  ⟨rfl, rfl, claim_C1 "k" "London" false false notFoundResponse rfl rfl⟩

/-- C1 fails as stated: a fetch attempt failing by network error does not
display the failure sentence; the exception propagates and no text is set. -/
theorem claim_C1_counterexample :
    get_weather_info (some "k") "London" false false (.raised .connectionError) =
      (.error .connectionError, 1) ∧
    (get_weather_info (some "k") "London" false false (.raised .connectionError)).1 ≠
      .ok failureText :=
  ⟨rfl, fun hc => Except.noConfusion hc⟩

/-- C2: the conversion chain applies, to each of the four temperature fields
identically and independently, the spec's formula for the selected unit. -/
theorem claim_C2 (t fl mn mx : ℚ) (u : String) :
    convertTemps t fl mn mx u =
      { temperature := specConvert u t, feels_like := specConvert u fl,
        temp_min := specConvert u mn, temp_max := specConvert u mx,
        unit_label := unitLabel u } :=
  convertTemps_eq_spec t fl mn mx u

/-- C3 (amended): the rendered output is a fixed nine-line template — a
header label plus eight data lines in the order location, weather
description, temperature, feels-like, min, max, humidity, wind speed — with
each converted temperature rendered with exactly two decimal places, the
humidity as its integer value, and the wind speed rendered exactly. -/
theorem claim_C3 (r : WeatherReading) (u : String) :
    display_weather_info (mkJson r) u = .ok (joinLines
      ["Weather Information:",
       "Location: " ++ r.locationName,
       "Weather: " ++ r.description,
       "Temperature: " ++ formatFixed2 (specConvert u r.temperatureKelvin) ++ " " ++ unitLabel u,
       "Feels Like: " ++ formatFixed2 (specConvert u r.feelsLikeKelvin) ++ " " ++ unitLabel u,
       "Min Temperature: " ++ formatFixed2 (specConvert u r.minTemperatureKelvin) ++ " " ++ unitLabel u,
       "Max Temperature: " ++ formatFixed2 (specConvert u r.maxTemperatureKelvin) ++ " " ++ unitLabel u,
       "Humidity: " ++ toString r.humidityPercent ++ "%",
       "Wind Speed: " ++ floatStr r.windSpeedMetersPerSecond ++ " m/s"]) ∧
    (∀ q : ℚ, ∃ s t : String, formatFixed2 q = s ++ "." ++ t ∧ t.length = 2 ∧
      t.toList.all Char.isDigit = true) :=
  ⟨display_weather_info_mkJson r u, formatFixed2_shape⟩

/-- C3 fails as stated: the rendered output of the §8 sample has nine lines,
not eight. -/
theorem claim_C3_counterexample :
    display_weather_info (mkJson sampleReading) "C" = .ok sampleRenderedC ∧
    lineCount sampleRenderedC = 9 ∧ lineCount sampleRenderedC ≠ 8 :=
  ⟨rfl, rfl, by decide⟩

/-- C4 (amended): with the environment variable absent or empty, the handler
raises `RuntimeError("OPENWEATHER_API_KEY is not set")` before any network
call: the network-call counter is zero. -/
theorem claim_C4 (loc : String) (c f : Bool) (fetch : FetchOutcome) :
    get_weather_info none loc c f fetch =
      (.error (.runtimeError "OPENWEATHER_API_KEY is not set"), 0) ∧
    get_weather_info (some "") loc c f fetch =
      (.error (.runtimeError "OPENWEATHER_API_KEY is not set"), 0) :=
  ⟨rfl, rfl⟩

/-- C4 fails as stated: the configuration error is surfaced with the message
`OPENWEATHER_API_KEY is not set`, not `API key not set`. -/
theorem claim_C4_counterexample :
    get_weather_info none "London" false false (.parsed notFoundResponse) =
      (.error (.runtimeError "OPENWEATHER_API_KEY is not set"), 0) ∧
    "OPENWEATHER_API_KEY is not set" ≠ "API key not set" :=
  ⟨rfl, by decide⟩

/-- C5 (amended): the request URL is built by direct string interpolation —
the fixed endpoint, `?q=`, the location text verbatim (no URL-encoding),
`&appid=`, and the API key; no `units` parameter appears in the fixed part. -/
theorem claim_C5 (api_key location : String) :
    get_weather_url api_key location =
      "https://api.openweathermap.org/data/2.5/weather?q=" ++ location ++ "&appid=" ++ api_key ∧
    isSubStr "units=" (get_weather_url "" "") = false :=
  ⟨rfl, by decide⟩

/-- C5 fails as stated: a location containing a space is interpolated
verbatim, not URL-encoded. -/
theorem claim_C5_counterexample :
    get_weather_url "KEY" "New York" =
      "https://api.openweathermap.org/data/2.5/weather?q=New York&appid=KEY" ∧
    get_weather_url "KEY" "New York" ≠
      "https://api.openweathermap.org/data/2.5/weather?q=New%20York&appid=KEY" ∧
    get_weather_url "KEY" "New York" ≠
      "https://api.openweathermap.org/data/2.5/weather?q=New+York&appid=KEY" := by
  refine ⟨rfl, ?_, ?_⟩ <;> decide

/-- C6: with no radio button selected the unit is `K`, under which the
conversion chain leaves all four temperatures unchanged with unit label `K`,
and the formatter renders the raw Kelvin values. -/
theorem claim_C6 :
    selectedUnit false false = "K" ∧
    (∀ t fl mn mx : ℚ, convertTemps t fl mn mx (selectedUnit false false) =
      { temperature := t, feels_like := fl, temp_min := mn, temp_max := mx,
        unit_label := "K" }) ∧
    (∀ r : WeatherReading, display_weather_info (mkJson r) (selectedUnit false false) =
      .ok (joinLines
        ["Weather Information:",
         "Location: " ++ r.locationName,
         "Weather: " ++ r.description,
         "Temperature: " ++ formatFixed2 r.temperatureKelvin ++ " " ++ "K",
         "Feels Like: " ++ formatFixed2 r.feelsLikeKelvin ++ " " ++ "K",
         "Min Temperature: " ++ formatFixed2 r.minTemperatureKelvin ++ " " ++ "K",
         "Max Temperature: " ++ formatFixed2 r.maxTemperatureKelvin ++ " " ++ "K",
         "Humidity: " ++ toString r.humidityPercent ++ "%",
         "Wind Speed: " ++ floatStr r.windSpeedMetersPerSecond ++ " m/s"])) :=
  ⟨rfl, fun _ _ _ _ => rfl, fun r => display_weather_info_mkJson r "K"⟩

/-- C7: converting 273.15 K and rendering with two decimals yields 0.00 with
label °C, 32.00 with label °F, and 273.15 with label K. -/
theorem claim_C7 :
    formatFixed2 ((convertTemps 273.15 273.15 273.15 273.15 "C").temperature) = "0.00" ∧
    (convertTemps 273.15 273.15 273.15 273.15 "C").unit_label = "°C" ∧
    formatFixed2 ((convertTemps 273.15 273.15 273.15 273.15 "F").temperature) = "32.00" ∧
    (convertTemps 273.15 273.15 273.15 273.15 "F").unit_label = "°F" ∧
    formatFixed2 ((convertTemps 273.15 273.15 273.15 273.15 "K").temperature) = "273.15" ∧
    (convertTemps 273.15 273.15 273.15 273.15 "K").unit_label = "K" := by
  refine ⟨?_, rfl, ?_, rfl, ?_, rfl⟩ <;> decide

/-- C8: on every field, the Fahrenheit conversion path equals the Celsius
conversion path followed by c ↦ c × 9/5 + 32. -/
theorem claim_C8 (t fl mn mx : ℚ) :
    (convertTemps t fl mn mx "F").temperature =
      (convertTemps t fl mn mx "C").temperature * 9/5 + 32 ∧
    (convertTemps t fl mn mx "F").feels_like =
      (convertTemps t fl mn mx "C").feels_like * 9/5 + 32 ∧
    (convertTemps t fl mn mx "F").temp_min =
      (convertTemps t fl mn mx "C").temp_min * 9/5 + 32 ∧
    (convertTemps t fl mn mx "F").temp_max =
      (convertTemps t fl mn mx "C").temp_max * 9/5 + 32 :=
  ⟨rfl, rfl, rfl, rfl⟩

/-- C9: the formatter is deterministic — two results of formatting the same
data with the same unit are identical. -/
theorem claim_C9 (data : Json) (u : String) (s₁ s₂ : String)
    (h₁ : display_weather_info data u = .ok s₁)
    (h₂ : display_weather_info data u = .ok s₂) : s₁ = s₂ := by
  rw [h₁] at h₂
  cases h₂
  rfl

theorem claim_C9_witness :
    display_weather_info (mkJson sampleReading) "K" = .ok sampleRenderedK ∧
    sampleRenderedK = sampleRenderedK :=
  ⟨rfl, claim_C9 (mkJson sampleReading) "K" sampleRenderedK sampleRenderedK rfl rfl⟩

/-- C10: on a truthy dict that contains `name` but lacks `weather`, `main`
or `wind` (or whose `weather` list is empty), the guard passes, the
formatter is invoked, and an exception propagates: the handler produces
neither weather text nor the failure sentence. -/
theorem claim_C10 (l : List (String × Json)) (k loc : String) (c f : Bool)
    (hk : k.isEmpty = false)
    (htr : truthy (Json.obj l) = true)
    (hname : (List.lookup "name" l).isSome = true)
    (hmiss : (List.lookup "weather" l).isSome = false ∨
      (List.lookup "main" l).isSome = false ∨
      (List.lookup "wind" l).isSome = false ∨ weatherEmpty l = true) :
    isOkB (get_weather_info (some k) loc c f (.parsed (Json.obj l))).1 = false := by
  have hcontains : jsonContains (Json.obj l) "name" = .ok true := by
    show Except.ok (List.lookup "name" l).isSome = Except.ok true
    rw [hname]
  have hguard : fetchGuard (Json.obj l) = .ok true := by
    simp [fetchGuard, htr, hcontains]
  simp only [get_weather_info, apiKeyPresent, hk, Bool.not_false, Bool.not_true,
    if_false, hguard]
  cases d : display_weather_info (Json.obj l) (selectedUnit c f) with
  | error e => simp [d, isOkB]
  | ok s =>
    exfalso
    obtain ⟨hw, hm, hwd, hwe⟩ := display_ok_shape l (selectedUnit c f) s d
    rcases hmiss with hx | hx | hx | hx
    · rw [hw] at hx; cases hx
    · rw [hm] at hx; cases hx
    · rw [hwd] at hx; cases hx
    · rw [hwe] at hx; cases hx

theorem claim_C10_witness :
    ("k" : String).isEmpty = false ∧
    truthy (Json.obj [("name", Json.str "X")]) = true ∧
    (List.lookup "name" [("name", Json.str "X")]).isSome = true ∧
    (List.lookup "weather" [("name", Json.str "X")]).isSome = false ∧
    isOkB (get_weather_info (some "k") "L" false false
      (.parsed (Json.obj [("name", Json.str "X")]))).1 = false :=
  ⟨rfl, rfl, rfl, rfl,
    claim_C10 [("name", Json.str "X")] "k" "L" false false rfl rfl rfl (Or.inl rfl)⟩
